import Mathlib

/-!
Verification development for the TOTP core of the qrcode-viewer repository
(`src/utils/totp.ts` and the live-refresh loop of
`src/components/ValueDisplay.tsx`).

Times are natural numbers of milliseconds since the Unix epoch (the value of
`Date.now()`).  Strings are handled at the `List Char` level.  The browser
platform primitives that the source calls (`new URL`, `URLSearchParams`,
`decodeURIComponent`) are modelled for the ASCII fragment the application
exercises; the cryptographic primitives delegated to the otplib library
(HMAC-SHA1, RFC 4648 Base32) are implemented bit-exactly from their standards.
-/

namespace QrTotp

/-! ## Time-Step Clock (`getTimeRemaining`, otplib's step counter) -/

/-- `getTimeRemaining` from `src/utils/totp.ts`:
`30 - (Math.floor(Date.now() / 1000) % 30)`, with `tms = Date.now()`. -/
def getTimeRemaining (tms : Nat) : Nat :=
  30 - (tms / 1000 % 30)

/-- The 30-second time-step counter `floor(unixTimeSeconds / 30)` that the
otplib authenticator derives from its `epoch` option (milliseconds). -/
def currentStep (tms : Nat) : Nat :=
  tms / 1000 / 30

/-! ## Platform-primitive models: percent decoding and query strings

`decodeURIComponent` throws a `URIError` on a `%` not followed by two hex
digits; the model returns `none` there.  Multi-byte UTF-8 escapes are modelled
as single Latin-1 bytes (the application only feeds ASCII labels). -/

/-- Value of a hexadecimal digit character, if it is one. -/
def hexDigitVal (c : Char) : Option Nat :=
  if ('0' ≤ c ∧ c ≤ '9') then some (c.toNat - 48)
  else if ('A' ≤ c ∧ c ≤ 'F') then some (c.toNat - 55)
  else if ('a' ≤ c ∧ c ≤ 'f') then some (c.toNat - 87)
  else none

/-- Lenient percent-decoding as done by `URLSearchParams`: an invalid escape
is passed through verbatim rather than failing. -/
def percentDecodeLenient : List Char → List Char
  | [] => []
  | '%' :: a :: b :: rest =>
    match hexDigitVal a, hexDigitVal b with
    | some hi, some lo => Char.ofNat (16 * hi + lo) :: percentDecodeLenient rest
    | _, _ => '%' :: percentDecodeLenient (a :: b :: rest)
  | c :: rest => c :: percentDecodeLenient rest

/-- Strict percent-decoding as done by `decodeURIComponent`: a malformed
escape sequence is an error (`URIError`), modelled as `none`. -/
def decodeURIComponentM : List Char → Option (List Char)
  | [] => some []
  | '%' :: a :: b :: rest =>
    match hexDigitVal a, hexDigitVal b with
    | some hi, some lo =>
      (decodeURIComponentM rest).map (fun l => Char.ofNat (16 * hi + lo) :: l)
    | _, _ => none
  | ['%'] => none
  | ['%', _] => none
  | c :: rest => (decodeURIComponentM rest).map (fun l => c :: l)

/-- Characters of `l` strictly before the first occurrence of `c`. -/
def takeUntil (c : Char) : List Char → List Char
  | [] => []
  | x :: xs => if x = c then [] else x :: takeUntil c xs

/-- Characters of `l` strictly after the first occurrence of `c`
(empty when `c` does not occur). -/
def dropThrough (c : Char) : List Char → List Char
  | [] => []
  | x :: xs => if x = c then xs else dropThrough c xs

/-- Split a character list at every occurrence of `c`. -/
def splitOnChar (c : Char) : List Char → List (List Char)
  | [] => [[]]
  | x :: xs =>
    match splitOnChar c xs with
    | [] => [[]]
    | h :: t => if x = c then [] :: h :: t else (x :: h) :: t

/-- `application/x-www-form-urlencoded` decoding used by `URLSearchParams`
for keys and values: `+` becomes a space, then lenient percent-decoding. -/
def formDecode (l : List Char) : List Char :=
  percentDecodeLenient (l.map (fun c => if c = '+' then ' ' else c))

/-- The key/value pairs of a query string, in order, as produced by
`URLSearchParams`: split on `&`, drop empty segments, split each segment at
its first `=` (a segment without `=` has the empty value), decode both
sides. -/
def queryPairs (query : List Char) : List (String × String) :=
  (splitOnChar '&' query).filterMap (fun seg =>
    if seg.isEmpty then none
    else
      some (String.mk (formDecode ( takeUntil '=' seg)),
            String.mk (formDecode (dropThrough '=' seg))))

/-- `URLSearchParams.get`: the value of the first pair with the given key,
or `none` (JavaScript `null`). -/
def getParam (name : String) (query : List Char) : Option String :=
  ((queryPairs query).find? (fun p => p.1 = name)).map (fun p => p.2)

/-! ## URL model for `otpauth://totp/...` strings

For any string beginning with `otpauth://totp/`, the WHATWG URL parser
succeeds, with host `totp`: the pathname is the `/`-initiated segment that
follows the host, up to the first `?` or `#`, and the query is what stands
between that `?` and the first `#`. -/

/-- The mandatory scheme-and-type literal checked by `parseTotpUri`. -/
def otpSchemeChars : List Char := "otpauth://totp/".data

/-- `url.pathname` of a string that starts with `otpauth://totp/`
(the leading `/` of the path is the 15th character of the input). -/
def urlPathname (u : List Char) : List Char :=
  '/' :: takeUntil '?' (takeUntil '#' (u.drop 15))

/-- The raw query of a string that starts with `otpauth://totp/`: the
characters after the first `?` of the fragment-stripped remainder. -/
def urlQuery (u : List Char) : List Char :=
  dropThrough '?' (takeUntil '#' (u.drop 15))

/-! ## `parseTotpUri` -/

/-- The `TotpData` record of `src/utils/totp.ts`.  The source always stores a
label when parsing succeeds; `issuer` is optional (`params.get('issuer') ||
undefined` turns an absent or empty issuer into `undefined`). -/
structure TotpData where
  secret : String
  label : String
  issuer : Option String
deriving Repr, DecidableEq

/-- `parseTotpUri` from `src/utils/totp.ts`, faithfully including the
`url.pathname.substring(7)` label computation and the try/catch that turns a
`decodeURIComponent` failure into `null`.  `params.get('secret')` is falsy in
JavaScript both when the parameter is absent and when its value is empty. -/
def parseTotpUri (uri : String) : Option TotpData :=
  if otpSchemeChars.isPrefixOf uri.data then
    let query := urlQuery uri.data
    match getParam "secret" query with
    | none => none
    | some s =>
      if s = "" then none
      else
        match decodeURIComponentM ((urlPathname uri.data).drop 7) with
        | none => none
        | some lbl =>
          some { secret := s
                 label := String.mk lbl
                 issuer := match getParam "issuer" query with
                           | none => none
                           | some i => if i = "" then none else some i }
  else none

/-! ## Byte-level helpers -/

/-- Truncation to a 32-bit word. -/
def w32 (n : Nat) : Nat := n % 4294967296

/-- Left rotation of a 32-bit word by `s` places. -/
def rotl32 (s n : Nat) : Nat := w32 (n <<< s) ||| (n >>> (32 - s))

/-- The `k` low-order bytes of `v`, big-endian. -/
def beBytes : Nat → Nat → List Nat
  | 0, _ => []
  | k + 1, v => beBytes k (v >>> 8) ++ [v &&& 255]

/-! ## SHA-1 (FIPS 180-4), the digest the otplib preset uses via crypto-js

Modelled from the spec: the source delegates hashing to
`@otplib/plugin-crypto-js`; the spec fixes the digest to the standard
SHA-1-family HMAC construction, implemented here bit-exactly over byte
lists. -/

/-- Big-endian 32-bit words of a byte list (complete groups of four). -/
def wordsOf : List Nat → List Nat
  | b0 :: b1 :: b2 :: b3 :: rest =>
    ((b0 <<< 24) ||| (b1 <<< 16) ||| (b2 <<< 8) ||| b3) :: wordsOf rest
  | _ => []

/-- Message-schedule extension: append `fuel` further words, each the
1-rotation of the XOR of the words 3, 8, 14 and 16 places back. -/
def sha1Extend : Nat → List Nat → List Nat
  | 0, w => w
  | n + 1, w =>
    let k := w.length
    let x := rotl32 1 ((w.getD (k - 3) 0) ^^^ (w.getD (k - 8) 0) ^^^
                       (w.getD (k - 14) 0) ^^^ (w.getD (k - 16) 0))
    sha1Extend n (w ++ [x])

/-- The SHA-1 round logical function for round `i`. -/
def sha1F (i b c d : Nat) : Nat :=
  if i < 20 then (b &&& c) ||| ((b ^^^ 4294967295) &&& d)
  else if i < 40 then b ^^^ c ^^^ d
  else if i < 60 then (b &&& c) ||| (b &&& d) ||| (c &&& d)
  else b ^^^ c ^^^ d

/-- The SHA-1 round constant for round `i`. -/
def sha1K (i : Nat) : Nat :=
  if i < 20 then 0x5A827999
  else if i < 40 then 0x6ED9EBA1
  else if i < 60 then 0x8F1BBCDC
  else 0xCA62C1D6

/-- One SHA-1 round on the five-word working state. -/
def sha1Round (w : List Nat) (st : Nat × Nat × Nat × Nat × Nat) (i : Nat) :
    Nat × Nat × Nat × Nat × Nat :=
  let (a, b, c, d, e) := st
  let t := w32 (rotl32 5 a + sha1F i b c d + e + sha1K i + w.getD i 0)
  (t, a, rotl32 30 b, c, d)

/-- Compression of one 64-byte block into the running hash state. -/
def sha1Block (h : Nat × Nat × Nat × Nat × Nat) (block : List Nat) :
    Nat × Nat × Nat × Nat × Nat :=
  let w := sha1Extend 64 (wordsOf block)
  let (h0, h1, h2, h3, h4) := h
  let (a, b, c, d, e) := (List.range 80).foldl (sha1Round w) h
  (w32 (h0 + a), w32 (h1 + b), w32 (h2 + c), w32 (h3 + d), w32 (h4 + e))

/-- SHA-1 padding: `0x80`, zeros to 56 mod 64, then the 64-bit big-endian
bit length. -/
def sha1Pad (msg : List Nat) : List Nat :=
  let L := msg.length
  msg ++ [128] ++ List.replicate ((120 - (L + 1) % 64) % 64) 0 ++ beBytes 8 (8 * L)

/-- Split a byte list into 64-byte chunks (`fuel` bounds the chunk count). -/
def chunks64 : Nat → List Nat → List (List Nat)
  | 0, _ => []
  | _, [] => []
  | n + 1, l => l.take 64 :: chunks64 n (l.drop 64)

/-- The 20-byte SHA-1 digest of a byte list. -/
def sha1 (msg : List Nat) : List Nat :=
  let blocks := chunks64 (msg.length + 9) (sha1Pad msg)
  let (a, b, c, d, e) :=
    blocks.foldl sha1Block (0x67452301, 0xEFCDAB89, 0x98BADCFE, 0x10325476, 0xC3D2E1F0)
  beBytes 4 a ++ beBytes 4 b ++ beBytes 4 c ++ beBytes 4 d ++ beBytes 4 e

/-- HMAC-SHA1 (FIPS 198-1) with 64-byte block size. -/
def hmacSha1 (key msg : List Nat) : List Nat :=
  let k0 := if 64 < key.length then sha1 key else key
  let k := k0 ++ List.replicate (64 - k0.length) 0
  sha1 ((k.map (fun b => b ^^^ 0x5C)) ++ sha1 ((k.map (fun b => b ^^^ 0x36)) ++ msg))

/-! ## Base32 (RFC 4648), as decoded by `@otplib/plugin-base32-enc-dec`

Modelled from the spec: alphabet `A–Z2–7`, case-insensitive, optional `=`
padding, whitespace stripped, incomplete trailing bit groups discarded;
any other character is a decode failure. -/

/-- The 5-bit value of a Base32 alphabet character, case-insensitively. -/
def b32Val (c : Char) : Option Nat :=
  let u := c.toUpper
  if ('A' ≤ u ∧ u ≤ 'Z') then some (u.toNat - 65)
  else if ('2' ≤ u ∧ u ≤ '7') then some (u.toNat - 50 + 26)
  else none

/-- Bit-accumulating Base32 decode loop: `buf` holds `bits < 8` pending
bits; each character contributes five more, a byte is emitted whenever
eight are available. -/
def base32Go : List Char → Nat → Nat → Option (List Nat)
  | [], _, _ => some []
  | c :: cs, buf, bits =>
    match b32Val c with
    | none => none
    | some v =>
      let buf2 := buf * 32 + v
      if 8 ≤ bits + 5 then
        (base32Go cs (buf2 % 2 ^ (bits + 5 - 8)) (bits + 5 - 8)).map
          (fun l => (buf2 >>> (bits + 5 - 8)) :: l)
      else base32Go cs buf2 (bits + 5)

/-- Drop trailing `=` padding characters. -/
def dropTrailingEq (l : List Char) : List Char :=
  (l.reverse.dropWhile (fun c => c = '=')).reverse

/-- Base32 decode of a secret string into key bytes, `none` on any
character outside the alphabet. -/
def base32Decode (s : String) : Option (List Nat) :=
  base32Go (dropTrailingEq (s.data.filter (fun c => ¬ c.isWhitespace))) 0 0

/-! ## HOTP dynamic truncation and `generateTotpCode` -/

/-- RFC 4226 dynamic truncation: offset `o` is the low 4 bits of the last
digest byte; the four bytes from `o`, with the sign bit of the first
cleared, read big-endian. -/
def dynamicTruncate (digest : List Nat) : Nat :=
  let o := digest.getD (digest.length - 1) 0 &&& 15
  ((digest.getD o 0 &&& 127) <<< 24) ||| (digest.getD (o + 1) 0 <<< 16) |||
    (digest.getD (o + 2) 0 <<< 8) ||| digest.getD (o + 3) 0

/-- The 6-digit HOTP value for a key and counter: HMAC-SHA1 over the
8-byte big-endian counter, dynamically truncated, reduced mod `10^6`. -/
def hotp6 (key : List Nat) (counter : Nat) : Nat :=
  dynamicTruncate (hmacSha1 key (beBytes 8 counter)) % 1000000

/-- Left-zero-padded 6-character decimal rendering of a code value
(`otplib` pads the decimal string of the value, which for values below
`10^6` is exactly these six digits). -/
def padCode (n : Nat) : String :=
  String.mk [Nat.digitChar (n / 100000 % 10), Nat.digitChar (n / 10000 % 10),
             Nat.digitChar (n / 1000 % 10), Nat.digitChar (n / 100 % 10),
             Nat.digitChar (n / 10 % 10), Nat.digitChar (n % 10)]

/-- The TOTP code for a secret at a given 30-second step: Base32-decode the
secret into the HMAC key, then the 6-digit HOTP value at that counter. -/
def totpAtStep (secret : String) (step : Nat) : Option String :=
  (base32Decode secret).map (fun key => padCode (hotp6 key step))

/-- `generateTotpCode` from `src/utils/totp.ts`: the otplib authenticator is
configured with `digits: 6` and `epoch: Date.now() + (next ? 30000 : 0)`
(milliseconds) and derives the code at counter `floor(epoch / 1000 / 30)`;
a failure (e.g. an invalid Base32 secret) is caught and returned as `null`. -/
def generateTotpCode (secret : String) (next : Bool) (tms : Nat) : Option String :=
  let epoch := tms + (if next then 30000 else 0)
  totpAtStep secret (epoch / 1000 / 30)

/-! ## Live-refresh loop of `ValueDisplay.tsx`

The component keeps a displayed code and a remaining-seconds value.  On
activation it derives a code immediately; the one-second interval callback
recomputes the remaining seconds on every tick and re-derives the code
exactly when the fresh value equals the full window length 30.  A `null`
from `generateTotpCode` (JavaScript falsy, as is the empty string) renders
the literal `'Error'`. -/

/-- The displayed state of an active TOTP value: the code shown and the
countdown. -/
structure DisplayState where
  totpCode : String
  timeRemaining : Nat
deriving Repr, DecidableEq

/-- `if (code) setTotpCode(code); else setTotpCode('Error')` from
`ValueDisplay.tsx`: a falsy result (null or empty) displays `'Error'`. -/
def renderCode : Option String → String
  | none => "Error"
  | some c => if c = "" then "Error" else c

/-- Activation of the display at time `tms`: derive an initial code and an
initial remaining-seconds value immediately, before the first tick. -/
def activate (secret : String) (tms : Nat) : DisplayState :=
  { totpCode := renderCode (generateTotpCode secret false tms)
    timeRemaining := getTimeRemaining tms }

/-- One tick of the `setInterval` callback at time `tms`: always update the
remaining seconds; re-derive the code exactly when the fresh value is 30. -/
def tick (secret : String) (tms : Nat) (st : DisplayState) : DisplayState :=
  let r := getTimeRemaining tms
  { timeRemaining := r
    totpCode := if r = 30 then renderCode (generateTotpCode secret false tms) else st.totpCode }

/-- The times (ms) of `n` one-second ticks following activation at `t0`. -/
def tickTimes (t0 n : Nat) : List Nat :=
  (List.range n).map (fun i => t0 + 1000 * (i + 1))

/-- Folding the interval callback over a list of tick times. -/
def runTicks (secret : String) (ts : List Nat) (st : DisplayState) : DisplayState :=
  ts.foldl (fun s t => tick secret t s) st

end QrTotp

namespace QrTotp

/-! ## Claims about the Time-Step Clock -/

/-- C3: for every Unix time, `getTimeRemaining` equals
`30 - (floor(t / 1000) mod 30)`, lies in `(0, 30]` (a step boundary yields
30, never 0), is constant within a whole second, and is periodic with
period 30 seconds. -/
theorem getTimeRemaining_spec (t u : Nat) (h : t / 1000 = u / 1000) :
    getTimeRemaining t = 30 - (t / 1000 % 30) ∧
    0 < getTimeRemaining t ∧ getTimeRemaining t ≤ 30 ∧
    (t / 1000 % 30 = 0 → getTimeRemaining t = 30) ∧
    getTimeRemaining t = getTimeRemaining u ∧
    getTimeRemaining (t + 30000) = getTimeRemaining t := by
  have hper : (t + 30000) / 1000 = t / 1000 + 30 := by
    rw [show (30000 : ℕ) = 30 * 1000 from rfl]
    exact Nat.add_mul_div_right t 30 (by norm_num)
  have h30 : t / 1000 % 30 < 30 := Nat.mod_lt _ (by norm_num)
  refine ⟨rfl, ?_, ?_, ?_, ?_, ?_⟩
  · simp only [getTimeRemaining]; omega
  · simp only [getTimeRemaining]; omega
  · intro hz; simp only [getTimeRemaining, hz, Nat.sub_zero]
  · simp only [getTimeRemaining, h]
  · simp only [getTimeRemaining, hper, Nat.add_mod_right]

/-- Witness for C3 at `t = u = 1000` ms. -/
theorem getTimeRemaining_spec_witness :
    1000 / 1000 = 1000 / 1000 ∧
    (getTimeRemaining 1000 = 30 - (1000 / 1000 % 30) ∧
     0 < getTimeRemaining 1000 ∧ getTimeRemaining 1000 ≤ 30 ∧
     (1000 / 1000 % 30 = 0 → getTimeRemaining 1000 = 30) ∧
     getTimeRemaining 1000 = getTimeRemaining 1000 ∧
     getTimeRemaining (1000 + 30000) = getTimeRemaining 1000) :=
  ⟨rfl, getTimeRemaining_spec 1000 1000 rfl⟩

/-- C8 counterexample: at the boundary instant 0 the function returns 30,
which is not in the claimed half-open range `[0, 30)`. -/
theorem getTimeRemaining_thirty_at_zero :
    getTimeRemaining 0 = 30 ∧ ¬ getTimeRemaining 0 < 30 := by decide

/-- C8 (amended): `getTimeRemaining` always lies in `[1, 30]`, i.e. in the
half-open-from-below range `(0, 30]`. -/
theorem getTimeRemaining_mem_Icc (t : Nat) :
    1 ≤ getTimeRemaining t ∧ getTimeRemaining t ≤ 30 := by
  simp only [getTimeRemaining]
  omega

/-! ## Claims about `generateTotpCode` -/

/-- C4: the `next`-window code advances the otplib epoch by 30000 ms, which
is provably the code at step counter `currentStep + 1`, with no drift at
any boundary; the ordinary call is the code at `currentStep`. -/
theorem generateTotpCode_next_eq_succ_step (secret : String) (tms : Nat) :
    generateTotpCode secret true tms = totpAtStep secret (currentStep tms + 1) ∧
    generateTotpCode secret false tms = totpAtStep secret (currentStep tms) := by
  have h1 : (tms + 30000) / 1000 = tms / 1000 + 30 := by omega
  have hstep : (tms + 30000) / 1000 / 30 = tms / 1000 / 30 + 1 := by
    rw [h1]; omega
  constructor
  · show totpAtStep secret ((tms + 30000) / 1000 / 30) = _
    rw [hstep]; rfl
  · rfl

/-! ## Claims about `parseTotpUri` -/

/-- C10: the scheme-and-type check is a literal, case-sensitive
`startsWith`: any input not beginning with the exact characters
`otpauth://totp/` is rejected. -/
theorem parseTotpUri_prefix_case_sensitive (uri : String)
    (h : ¬ otpSchemeChars.isPrefixOf uri.data = true) :
    parseTotpUri uri = none := by
  simp [parseTotpUri, h]

/-- Witness for C10 at the uppercase scheme and uppercase type variants. -/
theorem parseTotpUri_prefix_case_sensitive_witness :
    (¬ otpSchemeChars.isPrefixOf "OTPAUTH://totp/x?secret=A".data = true) ∧
    parseTotpUri "OTPAUTH://totp/x?secret=A" = none ∧
    (¬ otpSchemeChars.isPrefixOf "otpauth://TOTP/x?secret=A".data = true) ∧
    parseTotpUri "otpauth://TOTP/x?secret=A" = none :=
  ⟨by decide, parseTotpUri_prefix_case_sensitive _ (by decide),
   by decide, parseTotpUri_prefix_case_sensitive _ (by decide)⟩

/-- C9: a present but empty `secret` query parameter is falsy in
JavaScript, so it is treated exactly like an absent one: no `TotpData`
with an empty secret is ever produced. -/
theorem parseTotpUri_empty_secret_none (uri : String)
    (hp : otpSchemeChars.isPrefixOf uri.data = true)
    (hs : getParam "secret" (urlQuery uri.data) = some "") :
    parseTotpUri uri = none := by
  simp [parseTotpUri, hp, hs]

/-- Witness for C9 at `otpauth://totp/x?secret=`. -/
theorem parseTotpUri_empty_secret_none_witness :
    otpSchemeChars.isPrefixOf "otpauth://totp/x?secret=".data = true ∧
    getParam "secret" (urlQuery "otpauth://totp/x?secret=".data) = some "" ∧
    parseTotpUri "otpauth://totp/x?secret=" = none :=
  ⟨by decide, by decide, parseTotpUri_empty_secret_none _ (by decide) (by decide)⟩

/-- C5 counterexample: on `otpauth://totp/foo?secret=` the prefix is
present, the string parses as a URL, and the `secret` parameter is present
(with empty value), yet the parser returns `null` — so "null exactly when
the prefix is missing, the URI is unparseable, or the secret parameter is
absent" is false as stated. -/
theorem parseTotpUri_null_despite_present_secret :
    otpSchemeChars.isPrefixOf "otpauth://totp/foo?secret=".data = true ∧
    getParam "secret" (urlQuery "otpauth://totp/foo?secret=".data) = some "" ∧
    parseTotpUri "otpauth://totp/foo?secret=" = none := by decide

/-- C5 (amended): `parseTotpUri` returns `null` exactly when the prefix is
missing, the `secret` parameter is absent or empty, or URL-decoding the
label (`pathname.substring(7)`) fails; a string bearing the prefix always
parses as a URL, and in every other case a `TotpData` is returned. -/
theorem parseTotpUri_none_iff (uri : String) :
    parseTotpUri uri = none ↔
      (¬ otpSchemeChars.isPrefixOf uri.data = true ∨
       getParam "secret" (urlQuery uri.data) = none ∨
       getParam "secret" (urlQuery uri.data) = some "" ∨
       decodeURIComponentM ((urlPathname uri.data).drop 7) = none) := by
  by_cases hp : otpSchemeChars.isPrefixOf uri.data = true
  · rcases hq : getParam "secret" (urlQuery uri.data) with _ | s
    · simp [parseTotpUri, hp, hq]
    · by_cases hs : s = ""
      · subst hs; simp [parseTotpUri, hp, hq]
      · rcases hd : decodeURIComponentM ((urlPathname uri.data).drop 7) with _ | lbl
        · simp [parseTotpUri, hp, hq, hs, hd]
        · simp [parseTotpUri, hp, hq, hs, hd]
  · simp [parseTotpUri, hp]

/-- C2: at the spec's own example URI the parser keeps the secret exactly
but the label loses its first seven characters: `url.pathname` is
`/Example:alice@example.com` (the URL host is `totp`), so
`pathname.substring(7)` — intended, per the source comment, to strip a
leading `/totp/` — chops `/Exampl` and yields `e:alice@example.com`
instead of the claimed `Example:alice@example.com`. -/
theorem parseTotpUri_example_label_chopped :
    parseTotpUri
        "otpauth://totp/Example:alice@example.com?secret=JBSWY3DPEHPK3PXP&issuer=Example" =
      some { secret := "JBSWY3DPEHPK3PXP"
             label := "e:alice@example.com"
             issuer := some "Example" } ∧
    "e:alice@example.com" ≠ "Example:alice@example.com" := by decide

/-! ## Claims about the live-refresh loop -/

/-- C6: an Active-state tick re-derives the code exactly when the freshly
recomputed remaining-seconds value is the full window length 30, which
happens exactly at a 30-second step boundary; a non-boundary tick leaves
the code unchanged while still updating the countdown; and over 31
one-second ticks crossing exactly one boundary the re-derivation condition
holds exactly once. -/
theorem tick_rederives_iff_new_window (secret : String) (t0 : Nat) :
    (∀ t st, getTimeRemaining t ≠ 30 →
       (tick secret t st).totpCode = st.totpCode ∧
       (tick secret t st).timeRemaining = getTimeRemaining t) ∧
    (∀ t st, getTimeRemaining t = 30 →
       (tick secret t st).totpCode = renderCode (generateTotpCode secret false t)) ∧
    (∀ t : Nat, getTimeRemaining t = 30 ↔ t / 1000 % 30 = 0) ∧
    ((tickTimes t0 31).countP (fun t => decide (t / 1000 % 30 = 0)) = 1 →
       (tickTimes t0 31).countP (fun t => decide (getTimeRemaining t = 30)) = 1) := by
  have hb : ∀ t : Nat, getTimeRemaining t = 30 ↔ t / 1000 % 30 = 0 := by
    intro t
    have h30 : t / 1000 % 30 < 30 := Nat.mod_lt _ (by norm_num)
    simp only [getTimeRemaining]
    omega
  refine ⟨?_, ?_, hb, ?_⟩
  · intro t st hne
    simp [tick, hne]
  · intro t st he
    simp [tick, he]
  · intro hcount
    have hfun : (fun t => decide (getTimeRemaining t = 30)) =
        (fun t => decide (t / 1000 % 30 = 0)) := by
      funext t
      exact decide_eq_decide.mpr (hb t)
    rw [hfun]
    exact hcount

/-- Witness for C6: a non-boundary tick at 31 s keeps the code, and the
31-tick run from activation at 0 crosses exactly the boundary at 30 s. -/
theorem tick_rederives_iff_new_window_witness :
    getTimeRemaining 31000 ≠ 30 ∧
    (tick "JBSWY3DPEHPK3PXP" 31000 ⟨"996554", 29⟩).totpCode = "996554" ∧
    (tickTimes 0 31).countP (fun t => decide (t / 1000 % 30 = 0)) = 1 ∧
    (tickTimes 0 31).countP (fun t => decide (getTimeRemaining t = 30)) = 1 :=
  ⟨by decide,
   ((tick_rederives_iff_new_window "JBSWY3DPEHPK3PXP" 0).1 31000 ⟨"996554", 29⟩ (by decide)).1,
   by decide,
   (tick_rederives_iff_new_window "JBSWY3DPEHPK3PXP" 0).2.2.2 (by decide)⟩

/-- C7: a failed derivation — on activation or at a window-start tick —
displays the literal `'Error'` (never a blank or stale code), the countdown
is still updated on that tick, and the interval keeps firing: any later
tick still recomputes the countdown, and a window-start tick whose
derivation succeeds displays the fresh code. -/
theorem tick_error_marker_on_failure (secret : String) (t : Nat) (st : DisplayState)
    (hb : getTimeRemaining t = 30)
    (hf : generateTotpCode secret false t = none) :
    (tick secret t st).totpCode = "Error" ∧
    (tick secret t st).timeRemaining = 30 ∧
    (activate secret t).totpCode = "Error" ∧
    (∀ u, (tick secret u (tick secret t st)).timeRemaining = getTimeRemaining u) ∧
    (∀ s2 u st2 c, generateTotpCode s2 false u = some c → c ≠ "" →
       getTimeRemaining u = 30 → (tick s2 u st2).totpCode = c) := by
  refine ⟨?_, ?_, ?_, ?_, ?_⟩
  · simp [tick, hb, hf, renderCode]
  · simp [tick, hb]
  · simp [activate, hf, renderCode]
  · intro u
    simp [tick]
  · intro s2 u st2 c hc hcne hu
    simp [tick, hu, hc, renderCode, hcne]

/-- Witness for C7: the secret `"1"` is outside the Base32 alphabet, so
derivation fails at the boundary tick 30 s; the stale code `123456` is
replaced by `Error` and the countdown still updates. -/
theorem tick_error_marker_on_failure_witness :
    getTimeRemaining 30000 = 30 ∧
    generateTotpCode "1" false 30000 = none ∧
    (tick "1" 30000 ⟨"123456", 7⟩).totpCode = "Error" ∧
    (tick "1" 30000 ⟨"123456", 7⟩).timeRemaining = 30 ∧
    (activate "1" 30000).totpCode = "Error" :=
  ⟨by decide, by decide,
   (tick_error_marker_on_failure "1" 30000 ⟨"123456", 7⟩ (by decide) (by decide)).1,
   (tick_error_marker_on_failure "1" 30000 ⟨"123456", 7⟩ (by decide) (by decide)).2.1,
   (tick_error_marker_on_failure "1" 30000 ⟨"123456", 7⟩ (by decide) (by decide)).2.2.1⟩

/-! ## The code-derivation claim -/

/-- A decimal digit character rendered from a value reduced mod 10 is a
digit in the `Char.isDigit` sense. -/
theorem digitChar_mod_ten_isDigit (m : Nat) : (Nat.digitChar (m % 10)).isDigit = true := by
  have h : m % 10 < 10 := Nat.mod_lt _ (by norm_num)
  interval_cases h2 : m % 10 <;> decide

/-- C1: every successful `generateTotpCode` result is the standard TOTP
code: the HMAC-SHA1 of the 8-byte big-endian counter `floor(t / 30 s)`
keyed by the Base32-decoded secret bytes, dynamically truncated (offset =
low 4 bits of the last digest byte, 4 bytes from there with the top bit of
the first cleared, big-endian), reduced mod `10^6` and left-zero-padded to
exactly six decimal digit characters. -/
theorem generateTotpCode_standard (secret : String) (K : List Nat) (t : Nat) (c : String)
    (hK : base32Decode secret = some K)
    (hc : generateTotpCode secret false t = some c) :
    c = padCode (dynamicTruncate (hmacSha1 K (beBytes 8 (t / 1000 / 30))) % 1000000) ∧
    c.length = 6 ∧ (∀ ch ∈ c.data, ch.isDigit = true) := by
  have hc2 : totpAtStep secret (t / 1000 / 30) = some c := hc
  rw [totpAtStep, hK] at hc2
  injection hc2 with h
  have hceq : c = padCode (hotp6 K (t / 1000 / 30)) := h.symm
  refine ⟨hceq, ?_, ?_⟩
  · rw [hceq]; rfl
  · intro ch hch
    rw [hceq] at hch
    simp only [padCode, List.mem_cons, List.not_mem_nil, or_false] at hch
    rcases hch with h1 | h1 | h1 | h1 | h1 | h1 <;>
      (rw [h1]; exact digitChar_mod_ten_isDigit _)

set_option maxRecDepth 100000

/-- Witness for C1 at the RFC 6238 test key (`12345678901234567890` in
Base32) and `t = 59 s`, whose standard 6-digit TOTP code is `287082`. -/
theorem generateTotpCode_standard_witness :
    base32Decode "GEZDGNBVGY3TQOJQGEZDGNBVGY3TQOJQ" =
      some [49, 50, 51, 52, 53, 54, 55, 56, 57, 48,
            49, 50, 51, 52, 53, 54, 55, 56, 57, 48] ∧
    generateTotpCode "GEZDGNBVGY3TQOJQGEZDGNBVGY3TQOJQ" false 59000 = some "287082" ∧
    ("287082" = padCode (dynamicTruncate
        (hmacSha1 [49, 50, 51, 52, 53, 54, 55, 56, 57, 48,
                   49, 50, 51, 52, 53, 54, 55, 56, 57, 48]
          (beBytes 8 (59000 / 1000 / 30))) % 1000000) ∧
     ("287082" : String).length = 6 ∧
     (∀ ch ∈ ("287082" : String).data, ch.isDigit = true)) :=
  ⟨by decide, by decide,
   generateTotpCode_standard "GEZDGNBVGY3TQOJQGEZDGNBVGY3TQOJQ"
     [49, 50, 51, 52, 53, 54, 55, 56, 57, 48,
      49, 50, 51, 52, 53, 54, 55, 56, 57, 48]
     59000 "287082" (by decide) (by decide)⟩

end QrTotp
